import Mathlib

/-!
Verification of the TV video-player core: playback state reducer, playback
position store, player driver operations (play/pause, the two seek-debounce
paths, retry, status handling) and the remote-navigation state machine.
Definitions are shallow embeddings of the TypeScript sources
(src/hooks/usePlaybackState.ts, src/hooks/useVideoHandler.ts, the
VideoPlayer component and the ProgressBar component).
-/

namespace MyTV

/-- Modelled from the spec: the observable playback state record
(`PlaybackState` from src/types/video, a file not present among the sources;
fields follow spec section 3 and every use site in the hooks):
`isPlaying`, `currentTime`, `duration`, `isLoading` and an optional `error`
string. -/
structure PlaybackState where
  isPlaying : Bool
  currentTime : ℚ
  duration : ℚ
  isLoading : Bool
  error : Option String
deriving DecidableEq

/-- A partial update (`Partial<PlaybackState>` in the source): each field is
optionally provided.  The `error` field is doubly optional because the code
passes `error: undefined` explicitly to clear a recorded error, and a spread
with an explicitly-undefined key does overwrite the field. -/
structure PlaybackUpdate where
  isPlaying : Option Bool := none
  currentTime : Option ℚ := none
  duration : Option ℚ := none
  isLoading : Option Bool := none
  error : Option (Option String) := none
deriving DecidableEq

/-- Initial state of `usePlaybackState` (usePlaybackState.ts lines 11-16). -/
def initialPlaybackState : PlaybackState :=
  { isPlaying := false, currentTime := 0, duration := 0, isLoading := true, error := none }

/-- The reducer `updatePlaybackState` (usePlaybackState.ts lines 34-36):
`setPlaybackState(prev => ({ ...prev, ...updates }))`, a shallow merge that
replaces exactly the provided fields. -/
def updatePlaybackState (s : PlaybackState) (u : PlaybackUpdate) : PlaybackState :=
  { isPlaying := u.isPlaying.getD s.isPlaying
    currentTime := u.currentTime.getD s.currentTime
    duration := u.duration.getD s.duration
    isLoading := u.isLoading.getD s.isLoading
    error := u.error.getD s.error }

/-- The last provided (`some`) value in a list of optional field values;
used to state the last-write-wins property of the reducer. -/
def lastSet {α : Type} : List (Option α) → Option α
  | [] => none
  | o :: os => (lastSet os).orElse (fun _ => o)

/-- A saved playback position entry (`PlaybackPosition`,
usePlaybackState.ts lines 4-8).  Timestamps are epoch milliseconds. -/
structure PlaybackPosition where
  videoId : String
  position : ℚ
  timestamp : Int
deriving DecidableEq

/-- The in-memory position map (`playbackPositions`, a JS `Map` keyed by
video id). -/
abbrev Store := List (String × PlaybackPosition)

/-- `Map.prototype.get`: first entry with the given key. -/
def storeGet : Store → String → Option PlaybackPosition
  | [], _ => none
  | (k', v') :: rest, k => if k' = k then some v' else storeGet rest k

/-- `Map.prototype.set`: overwrite the entry for the key in place, or append
a fresh entry. -/
def storeSet : Store → String → PlaybackPosition → Store
  | [], k, v => [(k, v)]
  | (k', v') :: rest, k, v =>
      if k' = k then (k, v) :: rest else (k', v') :: storeSet rest k v

/-- `Map.prototype.delete`. -/
def storeDelete : Store → String → Store
  | [], _ => []
  | (k', v') :: rest, k => if k' = k then rest else (k', v') :: storeDelete rest k

/-- `savePlaybackPosition` (usePlaybackState.ts lines 38-49): records the
entry only when `position > 30`; `now` stands for `Date.now()`. -/
def savePlaybackPosition (st : Store) (videoId : String) (position : ℚ) (now : Int) : Store :=
  if 30 < position then storeSet st videoId ⟨videoId, position, now⟩ else st

/-- `getSavedPosition` (usePlaybackState.ts lines 55-63): the stored position
when the entry exists and is less than 24 hours old, else `0`. -/
def getSavedPosition (st : Store) (videoId : String) (now : Int) : ℚ :=
  match storeGet st videoId with
  | some sp => if now - sp.timestamp < 24 * 60 * 60 * 1000 then sp.position else 0
  | none => 0

/-- `clearPlaybackPosition` (usePlaybackState.ts lines 51-53). -/
def clearPlaybackPosition (st : Store) (videoId : String) : Store :=
  storeDelete st videoId

/-- A command issued to the opaque playback primitive (spec section 6):
`play()`, `pause()`, `player.currentTime = t` and `player.replace(url)`. -/
inductive PlayerCmd
  | play
  | pause
  | setCurrentTime (t : ℚ)
  | replace (url : String)
deriving DecidableEq

/-- Modelled from the spec: the opaque playback primitive (the expo-video
player, external to this repository; spec sections 5 and 6).  Commands are
issued to the asynchronous native layer and recorded in `commands`; the
property accessors `playing`, `currentTime` and `duration` reflect the last
state observed from the native side and are not changed synchronously by
issuing a command (the primitive reports changes through later status
events).  `throws` models a faulty primitive whose command calls throw. -/
structure Player where
  playing : Bool
  currentTime : ℚ
  duration : ℚ
  throws : Bool
  commands : List PlayerCmd
deriving DecidableEq

/-- Issue one command to the primitive; throws when the primitive is faulty. -/
def Player.issue (p : Player) (c : PlayerCmd) : Except String Player :=
  if p.throws then Except.error "primitive failure"
  else Except.ok { p with commands := p.commands ++ [c] }

/-- The primitive status carried by a `statusChange` event
(useVideoHandler.ts lines 224-277); `other` is the `default` case. -/
inductive VideoStatus
  | idle
  | loading
  | readyToPlay
  | error
  | other
deriving DecidableEq

/-- The `status.error` payload of an error status event: a plain string or an
object with an optional `message` field. -/
inductive StatusErrorPayload
  | str (s : String)
  | obj (message : Option String)
deriving DecidableEq

/-- Which debounced seek path scheduled the pending commit: `handleSeek`
(plain) or `handleSeekWithPause` (seek with resume). -/
inductive SeekPath
  | plain
  | withResume
deriving DecidableEq

/-- A pending debounced seek commit (the `seekTimeout` ref): the target
position, the debounce delay in milliseconds (300 for the plain path, 100
for the seek-with-resume path) and the scheduling path. -/
structure PendingSeek where
  position : ℚ
  delayMs : ℕ
  path : SeekPath
deriving DecidableEq

/-- The state owned by `useVideoHandler` for one playback session: the
content reference (`videoId`, `url`, `hlsUrl`), the platform indicator, the
primitive, the reducer state, the position store, the `seekTimeout` and
`wasPlayingBeforeSeek` refs, a scheduled resume delay (the inner
`setTimeout` of the seek-with-resume commit) and the load-timeout timer. -/
structure DriverState where
  videoId : String
  url : String
  hlsUrl : String
  isTV : Bool
  player : Player
  playback : PlaybackState
  store : Store
  pendingSeek : Option PendingSeek
  wasPlayingBeforeSeek : Bool
  pendingResume : Option ℕ
  loadTimeoutActive : Bool
deriving DecidableEq

/-- `const videoSource = Platform.isTV ? hlsUrl : url`
(useVideoHandler.ts line 43). -/
def DriverState.videoSource (st : DriverState) : String :=
  if st.isTV then st.hlsUrl else st.url

/-- The URL-validation effect (useVideoHandler.ts lines 28-40): only when
BOTH `url` and `hlsUrl` are empty (JS falsy) does it set
`error = "No valid video URL provided"` and `isLoading = false`; when just
one is missing it logs a warning and leaves the state alone. -/
def validateUrlsEffect (url hlsUrl : String) (s : PlaybackState) : PlaybackState :=
  if url = "" ∧ hlsUrl = "" then
    updatePlaybackState s
      { error := some (some "No valid video URL provided"), isLoading := some false }
  else s

/-- `handlePlayPause` (useVideoHandler.ts lines 79-95): toggle the primitive
and set `isPlaying` from `!player.playing` as read back after the command;
any throw is caught and recorded as
`error = "Failed to control video playback"`. -/
def handlePlayPause (st : DriverState) : Except String DriverState :=
  match (if st.player.playing then st.player.issue PlayerCmd.pause
         else st.player.issue PlayerCmd.play) with
  | Except.ok pl =>
      Except.ok { st with player := pl
                          playback := updatePlaybackState st.playback
                            { isPlaying := some (!pl.playing) } }
  | Except.error _ =>
      Except.ok { st with playback := updatePlaybackState st.playback
                            { error := some (some "Failed to control video playback") } }

/-- `handleSeek` (useVideoHandler.ts lines 97-136), the plain debounced seek:
cancel the pending commit, pause if playing, optimistically set
`currentTime`, then schedule the primitive commit 300 ms out.  The whole
body is wrapped in try/catch recording `"Failed to seek in video"`. -/
def handleSeek (st0 : DriverState) (position : ℚ) : Except String DriverState :=
  let stA := { st0 with pendingSeek := none }
  let paused : Except String DriverState :=
    if stA.player.playing then
      (stA.player.issue PlayerCmd.pause).map (fun pl =>
        { stA with player := pl
                   playback := updatePlaybackState stA.playback { isPlaying := some false } })
    else Except.ok stA
  match paused with
  | Except.error _ =>
      Except.ok { stA with playback := updatePlaybackState stA.playback
                             { error := some (some "Failed to seek in video") } }
  | Except.ok stB =>
      let stC := { stB with playback := updatePlaybackState stB.playback
                              { currentTime := some position } }
      Except.ok { stC with pendingSeek := some ⟨position, 300, SeekPath.plain⟩ }

/-- The plain seek's debounced commit callback (useVideoHandler.ts lines
117-127): set the primitive position and persist it, catching any throw as
`error = "Failed to seek to position"`. -/
def plainSeekCommit (st : DriverState) (position : ℚ) (now : Int) : Except String DriverState :=
  match st.player.issue (PlayerCmd.setCurrentTime position) with
  | Except.ok pl =>
      Except.ok { st with player := pl
                          store := savePlaybackPosition st.store st.videoId position now
                          pendingSeek := none }
  | Except.error _ =>
      Except.ok { st with playback := updatePlaybackState st.playback
                            { error := some (some "Failed to seek to position") }
                          pendingSeek := none }

/-- `handleSeekWithPause` (useVideoHandler.ts lines 138-178), the
seek-with-resume path: record `wasPlayingBeforeSeek`, pause if playing,
cancel any pending commit, optimistically set `currentTime`, then schedule
the commit 100 ms out.  Unlike `handleSeek` there is no try/catch, so a
throwing primitive call propagates. -/
def handleSeekWithPause (st0 : DriverState) (position : ℚ) : Except String DriverState :=
  let stA := { st0 with wasPlayingBeforeSeek := st0.player.playing }
  let paused : Except String DriverState :=
    if stA.player.playing then
      (stA.player.issue PlayerCmd.pause).map (fun pl =>
        { stA with player := pl
                   playback := updatePlaybackState stA.playback { isPlaying := some false } })
    else Except.ok stA
  match paused with
  | Except.error e => Except.error e
  | Except.ok stB =>
      let stC := { stB with pendingSeek := none }
      let stD := { stC with playback := updatePlaybackState stC.playback
                              { currentTime := some position } }
      Except.ok { stD with pendingSeek := some ⟨position, 100, SeekPath.withResume⟩ }

/-- The seek-with-resume commit callback (useVideoHandler.ts lines 162-175):
set the primitive position, persist it, and if `wasPlayingBeforeSeek`
schedule the resume 300 ms later.  No try/catch: a throw propagates. -/
def seekWithResumeCommit (st : DriverState) (position : ℚ) (now : Int) :
    Except String DriverState :=
  match st.player.issue (PlayerCmd.setCurrentTime position) with
  | Except.error e => Except.error e
  | Except.ok pl =>
      let stA := { st with player := pl
                           store := savePlaybackPosition st.store st.videoId position now
                           pendingSeek := none }
      if stA.wasPlayingBeforeSeek then Except.ok { stA with pendingResume := some 300 }
      else Except.ok stA

/-- The scheduled resume callback (useVideoHandler.ts lines 168-173):
`player.play()` and `isPlaying := true`; no try/catch. -/
def resumeCallback (st : DriverState) : Except String DriverState :=
  match st.player.issue PlayerCmd.play with
  | Except.error e => Except.error e
  | Except.ok pl =>
      Except.ok { st with player := pl
                          playback := updatePlaybackState st.playback { isPlaying := some true }
                          pendingResume := none }

/-- `handleSeekForward` (useVideoHandler.ts lines 180-186):
`min(currentTime + 10, duration)` through the seek-with-resume path. -/
def handleSeekForward (st : DriverState) : Except String DriverState :=
  handleSeekWithPause st (min (st.playback.currentTime + 10) st.playback.duration)

/-- `handleSeekBackward` (useVideoHandler.ts lines 188-191):
`max(currentTime - 10, 0)` through the seek-with-resume path. -/
def handleSeekBackward (st : DriverState) : Except String DriverState :=
  handleSeekWithPause st (max (st.playback.currentTime - 10) 0)

/-- `handleRetry` (useVideoHandler.ts lines 193-220): reset the reducer
state, cancel the pending seek, and replace the source with the other of
`{url, hlsUrl}`; a throw from `player.replace` is caught and recorded as
`error = "Failed to retry video playback"` with `isLoading = false`. -/
def handleRetry (st0 : DriverState) : Except String DriverState :=
  let stA := { st0 with playback := (updatePlaybackState st0.playback
                 { isLoading := some true, error := some none,
                   currentTime := some 0, isPlaying := some false }) }
  let stB := { stA with pendingSeek := none }
  let fallbackSource := if stB.videoSource = stB.hlsUrl then stB.url else stB.hlsUrl
  match stB.player.issue (PlayerCmd.replace fallbackSource) with
  | Except.ok pl => Except.ok { stB with player := pl }
  | Except.error _ =>
      Except.ok { stB with playback := updatePlaybackState stB.playback
                             { isLoading := some false,
                               error := some (some "Failed to retry video playback") } }

/-- The error message extraction of the `error` status case
(useVideoHandler.ts lines 257-260): a string payload is used as is, an
object's `message` is used unless falsy, and everything else falls back to
`"Video playback error occurred"`. -/
def statusErrorMessage : Option StatusErrorPayload → String
  | some (StatusErrorPayload.str s) => s
  | some (StatusErrorPayload.obj (some m)) =>
      if m = "" then "Video playback error occurred" else m
  | some (StatusErrorPayload.obj none) => "Video playback error occurred"
  | none => "Video playback error occurred"

/-- The `statusChange` listener (useVideoHandler.ts lines 224-277): one case
per primitive status; `readyToPlay` also cancels the load timeout. -/
def statusStep (st : DriverState) (status : VideoStatus)
    (payload : Option StatusErrorPayload) : DriverState :=
  match status with
  | VideoStatus.idle =>
      { st with playback := (updatePlaybackState st.playback
          { isPlaying := some false, isLoading := some false, error := some none }) }
  | VideoStatus.loading =>
      let isActuallyLoading := decide (st.player.currentTime = 0) || !st.player.playing
      { st with playback := (updatePlaybackState st.playback
          { isLoading := some isActuallyLoading, error := some none }) }
  | VideoStatus.readyToPlay =>
      { st with loadTimeoutActive := false
                playback := (updatePlaybackState st.playback
          { isLoading := some false, duration := some st.player.duration,
            error := some none }) }
  | VideoStatus.error =>
      { st with playback := (updatePlaybackState st.playback
          { isLoading := some false, isPlaying := some false,
            error := some (some (statusErrorMessage payload)) }) }
  | VideoStatus.other =>
      { st with playback := (updatePlaybackState st.playback
          { isPlaying := some st.player.playing, duration := some st.player.duration,
            currentTime := some st.player.currentTime }) }

/-- Fire the pending debounced seek commit, dispatching to the callback of
the path that scheduled it. -/
def firePendingSeek (st : DriverState) (now : Int) : Except String DriverState :=
  match st.pendingSeek with
  | some ps =>
      match ps.path with
      | SeekPath.plain => plainSeekCommit st ps.position now
      | SeekPath.withResume => seekWithResumeCommit st ps.position now
  | none => Except.ok st

/-- Scenario harness for the debounce property: two seek requests to 10 and
then 20 inside one debounce window (so the first pending commit is
cancelled before it fires), followed by the single timer firing. -/
def twoSeeksThenCommit (st : DriverState) (now : Int) : Except String DriverState :=
  match handleSeek st 10 with
  | Except.error e => Except.error e
  | Except.ok st1 =>
      match handleSeek st1 20 with
      | Except.error e => Except.error e
      | Except.ok st2 => firePendingSeek st2 now

/-- Whether a primitive command is a `setCurrentTime` command. -/
def isSetCurrentTime : PlayerCmd → Bool
  | PlayerCmd.setCurrentTime _ => true
  | _ => false

/-- The focusable controls of the player overlay (`focusedControl` values). -/
inductive Control
  | back
  | seekBackward
  | playPause
  | seekForward
  | progress
deriving DecidableEq

/-- The ordered control list of the navigation handler:
`['back', 'seekBackward', 'playPause', 'seekForward']`. -/
def controls : List Control :=
  [Control.back, Control.seekBackward, Control.playPause, Control.seekForward]

/-- `Array.prototype.indexOf` on the control list: index of the first match,
`-1` when the focus value is absent from the list (including `null` and
`progress`). -/
def jsIndexOf : List Control → Option Control → Int
  | [], _ => -1
  | c :: cs, x =>
      if x = some c then 0
      else
        let r := jsIndexOf cs x
        if r = -1 then -1 else r + 1

/-- The remote events of `handleTVRemoteKey`; `playPauseKey` is the
`'playPause'` event type, `backKey` the `'back'` event type, and `other`
the `default` case. -/
inductive RemoteEvent
  | playPauseKey
  | select
  | left
  | right
  | up
  | down
  | menu
  | backKey
  | other
deriving DecidableEq

/-- The VideoPlayer component state the remote handler touches: the focused
control (`null` allowed), the controls-overlay visibility, whether the
session has been closed (`onClose` called), and the driver state. -/
structure PlayerSession where
  focus : Option Control
  controlsVisible : Bool
  closed : Bool
  driver : DriverState
deriving DecidableEq

/-- `showControlsWithTimer`: make the controls visible and restart the
3-second auto-hide window (the timer itself is real time and not modelled). -/
def showControlsWithTimer (s : PlayerSession) : PlayerSession :=
  { s with controlsVisible := true }

/-- `onClose()`: the session is closed. -/
def closeSession (s : PlayerSession) : PlayerSession :=
  { s with closed := true }

/-- `handleTVRemoteKey` of the VideoPlayer component: acts only on the press
phase (`eventKeyAction = 1`); select dispatches on the focused control,
left/right either seek (when the progress bar is focused) or move focus
along the clamped control list, up/down move between rows, menu/back close
the session, and anything else only restarts the auto-hide timer. -/
def handleTVRemoteKey (eventType : RemoteEvent) (eventKeyAction : Int)
    (s : PlayerSession) : Except String PlayerSession :=
  if eventKeyAction = 1 then
    match eventType with
    | RemoteEvent.playPauseKey | RemoteEvent.select =>
        let acted : Except String PlayerSession :=
          match s.focus with
          | some Control.back => Except.ok (closeSession s)
          | some Control.playPause =>
              (handlePlayPause s.driver).map (fun d => { s with driver := d })
          | some Control.seekBackward =>
              (handleSeekBackward s.driver).map (fun d => { s with driver := d })
          | some Control.seekForward =>
              (handleSeekForward s.driver).map (fun d => { s with driver := d })
          | some Control.progress => Except.ok s
          | none => Except.ok s
        acted.map showControlsWithTimer
    | RemoteEvent.left =>
        if s.focus = some Control.progress then
          let newTime := max 0 (s.driver.playback.currentTime - 10)
          ((handleSeek s.driver newTime).map (fun d => { s with driver := d })).map
            showControlsWithTimer
        else
          let currentIndex := jsIndexOf controls s.focus
          let newIndex := max 0 (currentIndex - 1)
          Except.ok (showControlsWithTimer { s with focus := controls.get? newIndex.toNat })
    | RemoteEvent.right =>
        if s.focus = some Control.progress then
          let newTime := min s.driver.playback.duration (s.driver.playback.currentTime + 10)
          ((handleSeek s.driver newTime).map (fun d => { s with driver := d })).map
            showControlsWithTimer
        else
          let currentIndex := jsIndexOf controls s.focus
          let newIndex := min ((controls.length : Int) - 1) (currentIndex + 1)
          Except.ok (showControlsWithTimer { s with focus := controls.get? newIndex.toNat })
    | RemoteEvent.up =>
        Except.ok (showControlsWithTimer
          { s with focus := if s.focus = some Control.progress then some Control.playPause
                            else some Control.back })
    | RemoteEvent.down =>
        Except.ok (showControlsWithTimer
          (if s.focus ≠ some Control.progress then { s with focus := some Control.progress }
           else s))
    | RemoteEvent.menu => Except.ok (closeSession s)
    | RemoteEvent.backKey => Except.ok (closeSession s)
    | RemoteEvent.other => Except.ok (showControlsWithTimer s)
  else Except.ok s

/-- The ProgressBar press handler combined with its wiring in VideoPlayer
(`onSeek = handleSeek`): when the duration is positive, compute the drag
position from the press location and commit it through the plain
`handleSeek` path, clamped to `[0, duration]`. -/
def progressBarPress (st : DriverState) (locationX barWidth : ℚ) :
    Except String DriverState :=
  if 0 < st.playback.duration then
    let seekPosition := locationX / barWidth * st.playback.duration
    handleSeek st (max 0 (min st.playback.duration seekPosition))
  else Except.ok st

/-- A fresh, non-faulty primitive. -/
def basePlayer : Player :=
  { playing := false, currentTime := 0, duration := 0, throws := false, commands := [] }

/-- A primitive whose commands all throw. -/
def throwingPlayer : Player :=
  { basePlayer with throws := true }

/-- A fresh driver state for a non-TV session with both URLs present. -/
def baseDriver : DriverState :=
  { videoId := "v1", url := "https://x/video.mp4", hlsUrl := "https://x/hls.m3u8",
    isTV := false, player := basePlayer, playback := initialPlaybackState, store := [],
    pendingSeek := none, wasPlayingBeforeSeek := false, pendingResume := none,
    loadTimeoutActive := true }

/-- The base driver with a throwing primitive. -/
def throwingDriver : DriverState :=
  { baseDriver with player := throwingPlayer }

/-- The base driver with a playing primitive. -/
def playingDriver : DriverState :=
  { baseDriver with player := { basePlayer with playing := true } }

/-- A session with the progress bar focused, at position 50 of a
100-second video. -/
def progressSession : PlayerSession :=
  { focus := some Control.progress, controlsVisible := true, closed := false,
    driver := { baseDriver with playback :=
      { initialPlaybackState with currentTime := 50, duration := 100 } } }

/-- Helper: reading a key right after overwriting it in the position map
yields the new entry. -/
lemma storeGet_storeSet_self (st : Store) (k : String) (v : PlaybackPosition) :
    storeGet (storeSet st k v) k = some v := by
  induction st with
  | nil => simp [storeSet, storeGet]
  | cons hd tl ih =>
    obtain ⟨k', v'⟩ := hd
    by_cases h : k' = k
    · simp [storeSet, storeGet, h]
    · simp [storeSet, storeGet, h, ih]

/-- Helper: a fold of shallow merges realises last-write-wins for any field
whose merge behaviour is pointwise `getD`. -/
lemma foldl_field_lastSet {α : Type} (g : PlaybackState → α)
    (ug : PlaybackUpdate → Option α)
    (hcomm : ∀ s u, g (updatePlaybackState s u) = (ug u).getD (g s)) :
    ∀ (us : List PlaybackUpdate) (s0 : PlaybackState),
      g (us.foldl updatePlaybackState s0) = (lastSet (us.map ug)).getD (g s0) := by
  intro us
  induction us with
  | nil => intro s0; rfl
  | cons u tl ih =>
    intro s0
    rw [List.foldl_cons, ih, List.map_cons]
    cases h : lastSet (tl.map ug) with
    | some v => simp [lastSet, h, Option.orElse]
    | none => simp [lastSet, h, Option.orElse, hcomm]

/-- Claim C7: for every sequence of reducer updates, each field of the
resulting state is the value of the last update that provided it, and a
field no update provided keeps its initial value. -/
theorem c7_reducer_last_write_wins (us : List PlaybackUpdate) (s0 : PlaybackState) :
    (us.foldl updatePlaybackState s0).isPlaying
        = (lastSet (us.map PlaybackUpdate.isPlaying)).getD s0.isPlaying
  ∧ (us.foldl updatePlaybackState s0).currentTime
        = (lastSet (us.map PlaybackUpdate.currentTime)).getD s0.currentTime
  ∧ (us.foldl updatePlaybackState s0).duration
        = (lastSet (us.map PlaybackUpdate.duration)).getD s0.duration
  ∧ (us.foldl updatePlaybackState s0).isLoading
        = (lastSet (us.map PlaybackUpdate.isLoading)).getD s0.isLoading
  ∧ (us.foldl updatePlaybackState s0).error
        = (lastSet (us.map PlaybackUpdate.error)).getD s0.error :=
  ⟨foldl_field_lastSet (fun s => s.isPlaying) PlaybackUpdate.isPlaying (fun _ _ => rfl) us s0,
   foldl_field_lastSet (fun s => s.currentTime) PlaybackUpdate.currentTime (fun _ _ => rfl) us s0,
   foldl_field_lastSet (fun s => s.duration) PlaybackUpdate.duration (fun _ _ => rfl) us s0,
   foldl_field_lastSet (fun s => s.isLoading) PlaybackUpdate.isLoading (fun _ _ => rfl) us s0,
   foldl_field_lastSet (fun s => s.error) PlaybackUpdate.error (fun _ _ => rfl) us s0⟩

/-- Claim C9: processing an `idle` status event twice in a row is
idempotent; the state after the second event equals the state after the
first. -/
theorem c9_idle_status_idempotent (st : DriverState) :
    statusStep (statusStep st VideoStatus.idle none) VideoStatus.idle none
      = statusStep st VideoStatus.idle none := rfl

/-- Claim C8: starting from focus `playPause`, a left press moves focus to
`seekBackward`, a further left press moves it to `back`, and a further left
press leaves it at `back` (clamped at the start of the control list). -/
theorem c8_left_navigation_clamped (d : DriverState) (v c : Bool) :
    handleTVRemoteKey RemoteEvent.left 1 ⟨some Control.playPause, v, c, d⟩
        = Except.ok ⟨some Control.seekBackward, true, c, d⟩
  ∧ handleTVRemoteKey RemoteEvent.left 1 ⟨some Control.seekBackward, true, c, d⟩
        = Except.ok ⟨some Control.back, true, c, d⟩
  ∧ handleTVRemoteKey RemoteEvent.left 1 ⟨some Control.back, true, c, d⟩
        = Except.ok ⟨some Control.back, true, c, d⟩ :=
  ⟨rfl, rfl, rfl⟩

/-- Claim C10: with no control focused, a left press sets focus to `back`
and a right press also sets focus to `back` (the absent focus indexes to -1
and both clamp computations yield index 0). -/
theorem c10_no_focus_left_right_to_back (d : DriverState) (v c : Bool) :
    handleTVRemoteKey RemoteEvent.left 1 ⟨none, v, c, d⟩
        = Except.ok ⟨some Control.back, true, c, d⟩
  ∧ handleTVRemoteKey RemoteEvent.right 1 ⟨none, v, c, d⟩
        = Except.ok ⟨some Control.back, true, c, d⟩ :=
  ⟨rfl, rfl⟩

/-- Claim C6: the position store persists a save only when the position
exceeds 30 seconds, and a lookup returns the stored position exactly when an
entry exists and is less than 24 hours old, else 0; in particular saving 25
is not persisted, saving 45 is immediately readable, and an entry older than
24 hours reads as 0. -/
theorem c6_position_store (id : String) (p : ℚ) (now later : Int) (st : Store) :
    (¬ 30 < p → savePlaybackPosition st id p now = st)
  ∧ (30 < p → getSavedPosition (savePlaybackPosition st id p now) id later
        = if later - now < 24 * 60 * 60 * 1000 then p else 0)
  ∧ (storeGet st id = none → getSavedPosition st id later = 0)
  ∧ (∀ e, storeGet st id = some e →
        getSavedPosition st id later
          = if later - e.timestamp < 24 * 60 * 60 * 1000 then e.position else 0)
  ∧ getSavedPosition (savePlaybackPosition [] id 25 now) id now = 0
  ∧ getSavedPosition (savePlaybackPosition st id 45 now) id now = 45 := by
  refine ⟨?_, ?_, ?_, ?_, ?_, ?_⟩
  · intro h; simp [savePlaybackPosition, h]
  · intro h
    simp [savePlaybackPosition, h, getSavedPosition, storeGet_storeSet_self]
  · intro h; simp [getSavedPosition, h]
  · intro e he; simp [getSavedPosition, he]
  · norm_num [savePlaybackPosition, getSavedPosition, storeGet]
  · have h45 : (30 : ℚ) < 45 := by norm_num
    simp [savePlaybackPosition, h45, getSavedPosition, storeGet_storeSet_self]

/-- Witness for C6: saving 45 at time 0 is immediately readable, and reads
as 0 once the clock has advanced past 24 hours. -/
theorem c6_position_store_witness :
    getSavedPosition (savePlaybackPosition [] "v1" 45 0) "v1" 0 = 45
  ∧ getSavedPosition (savePlaybackPosition [] "v1" 45 0) "v1" 86400001 = 0 := by
  constructor
  · exact (c6_position_store "v1" 45 0 0 []).2.2.2.2.2
  · have h := (c6_position_store "v1" 45 0 86400001 []).2.1 (by norm_num)
    rw [h]; norm_num

/-- Counterexample for C1: initializing with an empty `url` and a non-empty
`hlsUrl` does NOT set the missing-source error; the validation effect leaves
the initial state (with `isLoading = true` and no error) unchanged, because
the code only errors when both URLs are empty. -/
theorem c1_missing_url_counterexample :
    validateUrlsEffect "" "https://x/hls.m3u8" initialPlaybackState = initialPlaybackState
  ∧ ¬((validateUrlsEffect "" "https://x/hls.m3u8" initialPlaybackState).error
        = some "No valid video URL provided"
      ∧ (validateUrlsEffect "" "https://x/hls.m3u8" initialPlaybackState).isLoading
        = false) := by
  constructor
  · rfl
  · decide

/-- Claim C1 as amended: the initialization effect sets
`error = "No valid video URL provided"` and `isLoading = false` exactly when
BOTH `url` and `hlsUrl` are empty; when at least one URL is non-empty (for
example `url = ""` with a non-empty `hlsUrl`, on any platform) the playback
state is left unchanged and only a warning is logged. -/
theorem c1_missing_url_amended (url hlsUrl : String) (s : PlaybackState) :
    (url = "" → hlsUrl = "" →
      validateUrlsEffect url hlsUrl s
        = { s with error := some "No valid video URL provided", isLoading := false })
  ∧ (¬(url = "" ∧ hlsUrl = "") → validateUrlsEffect url hlsUrl s = s) := by
  constructor
  · intro h1 h2; simp [validateUrlsEffect, h1, h2, updatePlaybackState]
  · intro h; simp [validateUrlsEffect, h]

/-- Witness for the amended C1: both URLs empty produces the error state;
empty `url` with a non-empty `hlsUrl` leaves the state unchanged. -/
theorem c1_missing_url_witness :
    validateUrlsEffect "" "" initialPlaybackState
      = { initialPlaybackState with
          error := some "No valid video URL provided", isLoading := false }
  ∧ validateUrlsEffect "" "https://x/hls.m3u8" initialPlaybackState
      = initialPlaybackState :=
  ⟨(c1_missing_url_amended "" "" initialPlaybackState).1 rfl rfl,
   (c1_missing_url_amended "" "https://x/hls.m3u8" initialPlaybackState).2 (by decide)⟩

/-- Claim C4: for every primitive state (with a non-faulty primitive),
after `handlePlayPause` the reducer field `isPlaying` equals the logical
negation of the primitive playing value read before the toggle was
issued. -/
theorem c4_playPause_toggles_isPlaying (st : DriverState)
    (h : st.player.throws = false) :
    (handlePlayPause st).toOption.map (fun s => s.playback.isPlaying)
      = some (!st.player.playing) := by
  cases hp : st.player.playing <;>
    simp [handlePlayPause, Player.issue, h, hp, updatePlaybackState, Except.toOption]

/-- Witness for C4: toggling a playing primitive records
`isPlaying = false`. -/
theorem c4_playPause_witness :
    (handlePlayPause playingDriver).toOption.map (fun s => s.playback.isPlaying)
      = some false := by
  have h := c4_playPause_toggles_isPlaying playingDriver rfl
  simpa [playingDriver, basePlayer, baseDriver] using h

/-- Helper: with a non-faulty primitive, the plain debounced seek always
succeeds and schedules a 300 ms plain-path commit for the requested
position. -/
lemma handleSeek_ok (st : DriverState) (pos : ℚ) (h : st.player.throws = false) :
    ∃ st', handleSeek st pos = Except.ok st'
      ∧ st'.pendingSeek = some ⟨pos, 300, SeekPath.plain⟩ := by
  cases hp : st.player.playing <;>
    simp [handleSeek, Player.issue, h, hp, Except.map]

/-- Helper: with a non-faulty primitive, the seek-with-resume entry point
succeeds, schedules a 100 ms with-resume commit and captures the primitive's
playing value in `wasPlayingBeforeSeek`. -/
lemma handleSeekWithPause_ok (st : DriverState) (pos : ℚ)
    (h : st.player.throws = false) :
    ∃ st', handleSeekWithPause st pos = Except.ok st'
      ∧ st'.pendingSeek = some ⟨pos, 100, SeekPath.withResume⟩
      ∧ st'.wasPlayingBeforeSeek = st.player.playing := by
  cases hp : st.player.playing <;>
    simp [handleSeekWithPause, Player.issue, h, hp, Except.map]

/-- Counterexample for C2: the seek-with-resume debounced commit has no
try/catch, so with a faulty primitive the thrown fault propagates out of the
operation instead of being recorded on the playback state. -/
theorem c2_seek_resume_commit_counterexample :
    seekWithResumeCommit throwingDriver 20 0 = Except.error "primitive failure" := rfl

/-- Claim C2 as amended: play/pause, the plain seek commit and retry each
wrap the primitive call, never propagate, and convert a thrown fault into a
recorded error string; the seek-with-resume commit is the exception and does
not wrap its primitive call. -/
theorem c2_fault_containment_amended (st : DriverState) (pos : ℚ) (now : Int) :
    (∃ st1, handlePlayPause st = Except.ok st1)
  ∧ (∃ st2, plainSeekCommit st pos now = Except.ok st2)
  ∧ (∃ st3, handleRetry st = Except.ok st3)
  ∧ (st.player.throws = true →
      handlePlayPause st
        = Except.ok { st with playback := (updatePlaybackState st.playback
            { error := some (some "Failed to control video playback") }) }
      ∧ plainSeekCommit st pos now
        = Except.ok { st with
            playback := (updatePlaybackState st.playback
              { error := some (some "Failed to seek to position") })
            pendingSeek := none }
      ∧ (∃ st4, handleRetry st = Except.ok st4
          ∧ st4.playback.error = some "Failed to retry video playback"
          ∧ st4.playback.isLoading = false)) := by
  refine ⟨?_, ?_, ?_, ?_⟩
  · cases ht : st.player.throws <;> cases hp : st.player.playing <;>
      simp [handlePlayPause, Player.issue, ht, hp]
  · cases ht : st.player.throws <;> simp [plainSeekCommit, Player.issue, ht]
  · cases ht : st.player.throws <;> simp [handleRetry, Player.issue, ht]
  · intro ht
    refine ⟨?_, ?_, ?_⟩
    · cases hp : st.player.playing <;> simp [handlePlayPause, Player.issue, ht, hp]
    · simp [plainSeekCommit, Player.issue, ht]
    · simp [handleRetry, Player.issue, ht, updatePlaybackState]

/-- Witness for the amended C2: with a faulty primitive, play/pause returns
normally with the playback-control error recorded. -/
theorem c2_fault_containment_witness :
    handlePlayPause throwingDriver
      = Except.ok { throwingDriver with
          playback := (updatePlaybackState throwingDriver.playback
            { error := some (some "Failed to control video playback") }) } :=
  ((c2_fault_containment_amended throwingDriver 20 0).2.2.2 rfl).1

/-- Counterexample for C3: with the progress control focused at position 50
of a 100-second video, a remote left press schedules the seek through the
plain path (300 ms debounce, no resume), not through the seek-with-resume
path (100 ms) that the forward/backward jumps use. -/
theorem c3_progress_seek_counterexample :
    (handleTVRemoteKey RemoteEvent.left 1 progressSession).toOption.map
        (fun s => s.driver.pendingSeek)
      = some (some ⟨40, 300, SeekPath.plain⟩)
  ∧ (handleTVRemoteKey RemoteEvent.left 1 progressSession).toOption.map
        (fun s => s.driver.pendingSeek)
      ≠ some (some ⟨40, 100, SeekPath.withResume⟩) := by
  obtain ⟨d', hd, hps⟩ :=
    handleSeek_ok progressSession.driver
      (max 0 (progressSession.driver.playback.currentTime - 10)) rfl
  have hfoc : progressSession.focus = some Control.progress := rfl
  have hmain : (handleTVRemoteKey RemoteEvent.left 1 progressSession).toOption.map
      (fun s => s.driver.pendingSeek) = some (some ⟨40, 300, SeekPath.plain⟩) := by
    simp [handleTVRemoteKey, hfoc, hd, Except.map, Except.toOption,
          showControlsWithTimer, hps]
    norm_num [progressSession, baseDriver, initialPlaybackState, max_def]
  refine ⟨hmain, ?_⟩
  rw [hmain]
  simp

/-- Claim C3 as amended: progress-bar seeks (remote left/right presses while
the progress control is focused, and progress-bar drag commits) go through
the PLAIN seek path, committing the primitive seek after a 300 ms quiet
interval with no automatic resume; only the 10-second forward/backward jumps
go through the seek-with-resume path, which captures the playing state,
commits after 100 ms, and schedules the resume 300 ms after the commit
exactly when it was playing. -/
theorem c3_seek_paths_amended (s : PlayerSession) (st : DriverState)
    (locX barW : ℚ)
    (hf : s.focus = some Control.progress)
    (hs : s.driver.player.throws = false)
    (ht : st.player.throws = false) :
    (∃ s1, handleTVRemoteKey RemoteEvent.left 1 s = Except.ok s1
      ∧ s1.driver.pendingSeek
          = some ⟨max 0 (s.driver.playback.currentTime - 10), 300, SeekPath.plain⟩)
  ∧ (∃ s2, handleTVRemoteKey RemoteEvent.right 1 s = Except.ok s2
      ∧ s2.driver.pendingSeek
          = some ⟨min s.driver.playback.duration (s.driver.playback.currentTime + 10),
                  300, SeekPath.plain⟩)
  ∧ (0 < st.playback.duration →
      ∃ d1, progressBarPress st locX barW = Except.ok d1
        ∧ d1.pendingSeek
            = some ⟨max 0 (min st.playback.duration (locX / barW * st.playback.duration)),
                    300, SeekPath.plain⟩)
  ∧ (∃ d2, handleSeekForward st = Except.ok d2
      ∧ d2.pendingSeek
          = some ⟨min (st.playback.currentTime + 10) st.playback.duration, 100,
                  SeekPath.withResume⟩
      ∧ d2.wasPlayingBeforeSeek = st.player.playing)
  ∧ (∃ d3, handleSeekBackward st = Except.ok d3
      ∧ d3.pendingSeek
          = some ⟨max (st.playback.currentTime - 10) 0, 100, SeekPath.withResume⟩
      ∧ d3.wasPlayingBeforeSeek = st.player.playing)
  ∧ (∀ pos now, ∃ d4, plainSeekCommit st pos now = Except.ok d4
      ∧ d4.pendingResume = st.pendingResume
      ∧ d4.playback.isPlaying = st.playback.isPlaying)
  ∧ (∀ pos now, ∃ d5, seekWithResumeCommit st pos now = Except.ok d5
      ∧ d5.pendingResume = (if st.wasPlayingBeforeSeek then some 300 else st.pendingResume))
  ∧ (∃ d6, resumeCallback st = Except.ok d6 ∧ d6.playback.isPlaying = true) := by
  refine ⟨?_, ?_, ?_, ?_, ?_, ?_, ?_, ?_⟩
  · obtain ⟨d', hd, hps⟩ :=
      handleSeek_ok s.driver (max 0 (s.driver.playback.currentTime - 10)) hs
    refine ⟨showControlsWithTimer { s with driver := d' }, ?_, ?_⟩
    · simp [handleTVRemoteKey, hf, hd, Except.map]
    · simpa [showControlsWithTimer] using hps
  · obtain ⟨d', hd, hps⟩ :=
      handleSeek_ok s.driver
        (min s.driver.playback.duration (s.driver.playback.currentTime + 10)) hs
    refine ⟨showControlsWithTimer { s with driver := d' }, ?_, ?_⟩
    · simp [handleTVRemoteKey, hf, hd, Except.map]
    · simpa [showControlsWithTimer] using hps
  · intro hdur
    obtain ⟨d', hd, hps⟩ :=
      handleSeek_ok st
        (max 0 (min st.playback.duration (locX / barW * st.playback.duration))) ht
    exact ⟨d', by simp [progressBarPress, hdur, hd], hps⟩
  · obtain ⟨d', hd, hps, hw⟩ :=
      handleSeekWithPause_ok st
        (min (st.playback.currentTime + 10) st.playback.duration) ht
    exact ⟨d', by simp [handleSeekForward, hd], hps, hw⟩
  · obtain ⟨d', hd, hps, hw⟩ :=
      handleSeekWithPause_ok st
        (max (st.playback.currentTime - 10) 0) ht
    exact ⟨d', by simp [handleSeekBackward, hd], hps, hw⟩
  · intro pos now
    simp [plainSeekCommit, Player.issue, ht]
  · intro pos now
    cases hw : st.wasPlayingBeforeSeek <;>
      simp [seekWithResumeCommit, Player.issue, ht, hw]
  · simp [resumeCallback, Player.issue, ht, updatePlaybackState]

/-- Witness for the amended C3: at position 50 of a 100-second video with
the progress control focused, a right press schedules a plain-path 300 ms
commit at position 60. -/
theorem c3_seek_paths_witness :
    ∃ s2, handleTVRemoteKey RemoteEvent.right 1 progressSession = Except.ok s2
      ∧ s2.driver.pendingSeek = some ⟨60, 300, SeekPath.plain⟩ := by
  obtain ⟨s2, h1, h2⟩ :=
    (c3_seek_paths_amended progressSession progressSession.driver 200 400
      rfl rfl rfl).2.1
  refine ⟨s2, h1, ?_⟩
  rw [h2]
  norm_num [progressSession, baseDriver, initialPlaybackState, min_def]

/-- Claim C5: two seek requests to 10 and then 20 inside the same debounce
window result in exactly one `setCurrentTime` command to the primitive, with
value 20 (the first pending commit is cancelled). -/
theorem c5_debounced_seek_single_commit (st : DriverState) (now : Int)
    (h : st.player.throws = false) (hc : st.player.commands = []) :
    ∃ stf, twoSeeksThenCommit st now = Except.ok stf
      ∧ stf.player.commands.filter isSetCurrentTime
          = [PlayerCmd.setCurrentTime 20] := by
  cases hp : st.player.playing <;>
    simp [twoSeeksThenCommit, handleSeek, firePendingSeek, plainSeekCommit,
          Player.issue, h, hp, hc, isSetCurrentTime, List.filter, Except.map]

/-- Witness for C5: the scenario on a fresh driver yields exactly one
`setCurrentTime` command with value 20. -/
theorem c5_debounced_seek_witness :
    ∃ stf, twoSeeksThenCommit baseDriver 0 = Except.ok stf
      ∧ stf.player.commands.filter isSetCurrentTime
          = [PlayerCmd.setCurrentTime 20] :=
  c5_debounced_seek_single_commit baseDriver 0 rfl rfl

end MyTV
